import Mathlib

/-!
Verification development for the lighthouse-news-api repository.

The definitions below are shallow embeddings of the JavaScript source:
  * the rate-limited retrying fetch client (`utils/fetchXML.js`),
  * the ephemeral TTL cache (`utils/cache.js`),
  * the balanced multi-source distribution engine and the news list route
    (`routes/news.js`).

JavaScript numbers are modelled as `Int` (all values that occur on the
verified paths are integers); machine time (`Date.now()`) is an explicit
`Int` parameter `now` in milliseconds; the MongoDB store is a `List Article`;
promises that either resolve or reject are `Except` values; nondeterministic
helpers (`_.shuffle`, `_.sampleSize`) are function parameters.
-/

/-! ## Data model -/

/-- Article read-model: the fields the distribution engine and the list route
consult (`title` stands in for the identity-carrying payload fields;
`pubDate` and the store timestamps are epoch milliseconds). -/
structure Article where
  title : String
  source : String
  category : String
  pubDate : Int
  views : Int
deriving DecidableEq, Repr

/-! ## Rate-limited fetch client (utils/fetchXML.js) -/

/-- Per-domain rate limit profile: `{delay, maxRetries, retryDelay}`. -/
structure RateLimitSettings where
  delay : Nat
  maxRetries : Nat
  retryDelay : Nat
deriving DecidableEq, Repr

/-- The `default` profile from the `RATE_LIMITS` table. -/
def defaultRateLimit : RateLimitSettings := ⟨2000, 3, 2000⟩

/-- The `www.thestar.com` override from the `RATE_LIMITS` table. -/
def theStarRateLimit : RateLimitSettings := ⟨5000, 5, 5000⟩

/-- Lookup `RATE_LIMITS[domain] || RATE_LIMITS.default`. -/
def getRateLimitSettings (domain : String) : RateLimitSettings :=
  if domain = "www.thestar.com" then theStarRateLimit else defaultRateLimit

/-- Failure observed by one axios attempt: `status` is the HTTP status when a
response arrived (`err.response?.status`), `code` is the client error code
(`err.code`, e.g. `ECONNABORTED` on timeout). -/
structure FetchErr where
  status : Option Nat
  code : Option String
deriving DecidableEq, Repr

/-- Classification `err.response?.status === 429`. -/
def isRateLimitErr (e : FetchErr) : Bool := e.status = some 429

/-- Classification `err.response?.status === 403`. -/
def isForbiddenErr (e : FetchErr) : Bool := e.status = some 403

/-- Classification `err.code === 'ECONNABORTED'`. -/
def isTimeoutErr (e : FetchErr) : Bool := e.code = some "ECONNABORTED"

/-- Retry delay computed in the catch block of `fetchXML`:
`isRateLimit ? retryDelay * attempt : isForbidden ? retryDelay * 2 : retryDelay`. -/
def retryDelayFor (settings : RateLimitSettings) (attempt : Nat) (e : FetchErr) : Nat :=
  if isRateLimitErr e then settings.retryDelay * attempt
  else if isForbiddenErr e then settings.retryDelay * 2
  else settings.retryDelay

/-- Terminal error thrown after the retry loop: the message carries
`settings.maxRetries` (attempt count) and `formatError(lastError)`. -/
structure ExhaustedError where
  attempts : Nat
  lastError : Option FetchErr
deriving DecidableEq, Repr

/-- Retry loop of `fetchXML`, with the network abstracted as `outcome`
(the result of attempt number `attempt`).  `remaining` counts the loop
iterations still allowed; the loop starts at `attempt = 1` and runs while
`attempt <= settings.maxRetries`, recording the last error. -/
def fetchAttemptsLoop (outcome : Nat → Except FetchErr String) (maxRetries : Nat) :
    Nat → Nat → Option FetchErr → Except ExhaustedError String
  | 0, _, lastError => .error ⟨maxRetries, lastError⟩
  | remaining + 1, attempt, _ =>
    match outcome attempt with
    | .ok content => .ok content
    | .error e => fetchAttemptsLoop outcome maxRetries remaining (attempt + 1) (some e)

/-- Result of `fetchXML(location)` for a given per-attempt network behaviour:
either the fetched content or the exhaustion error of line 234. -/
def fetchXMLResult (outcome : Nat → Except FetchErr String) (settings : RateLimitSettings) :
    Except ExhaustedError String :=
  fetchAttemptsLoop outcome settings.maxRetries settings.maxRetries 1 none

/-- Number of attempts the loop actually performs. -/
def attemptsMade (outcome : Nat → Except FetchErr String) : Nat → Nat → Nat
  | 0, _ => 0
  | remaining + 1, attempt =>
    match outcome attempt with
    | .ok _ => 1
    | .error _ => 1 + attemptsMade outcome remaining (attempt + 1)

/-- Number of attempts performed by a full `fetchXML` call. -/
def fetchAttemptCount (outcome : Nat → Except FetchErr String) (settings : RateLimitSettings) : Nat :=
  attemptsMade outcome settings.maxRetries 1

/-- One run of the `isDownloadable` staging block (lines 170-196):
axios response, `fs.writeFile` to the temp path, `fs.readFile` back.
The returned `Bool` records whether the uniquely-named temporary file is
still on disk when the block exits (`fs.unlink` runs only after a
successful read; there is no `finally`). -/
structure DownloadArtifactRun where
  responseOutcome : Except FetchErr String
  writeOutcome : Except FetchErr Unit
  readOutcome : Except FetchErr Unit
deriving Repr

/-- Evaluate the staging block: on response failure nothing was written; on
write failure the file was not created; on read failure the file was written
and remains (the unlink is skipped); on success the content is returned and
the unlink removes the file. -/
def runDownloadFirst (run : DownloadArtifactRun) : Except FetchErr String × Bool :=
  match run.responseOutcome with
  | .error e => (.error e, false)
  | .ok data =>
    match run.writeOutcome with
    | .error e => (.error e, false)
    | .ok _ =>
      match run.readOutcome with
      | .error e => (.error e, true)
      | .ok _ => (.ok data, false)

/-! ## Ephemeral cache (utils/cache.js) -/

/-- Cache entry: `{data, expiry: Date.now() + ttlSeconds * 1000}`. -/
structure CacheEntry (α : Type) where
  data : α
  expiry : Int
deriving DecidableEq, Repr

/-- The cache `Map`, modelled as a function from keys to optional entries. -/
def CacheMap (α : Type) : Type := String → Option (CacheEntry α)

/-- `setCache(key, data, ttlSeconds)` at instant `now`: unconditionally
overwrites the entry under `key`. -/
def setCache {α : Type} (m : CacheMap α) (key : String) (data : α) (ttlSeconds : Int)
    (now : Int) : CacheMap α :=
  fun k => if k = key then some ⟨data, now + ttlSeconds * 1000⟩ else m k

/-- `getCache(key)` at instant `now`: returns the value and the resulting map
(`Date.now() > cached.expiry` evicts lazily and reports a miss). -/
def getCache {α : Type} (m : CacheMap α) (key : String) (now : Int) :
    Option α × CacheMap α :=
  match m key with
  | none => (none, m)
  | some cached =>
    if cached.expiry < now then (none, fun k => if k = key then none else m k)
    else (some cached.data, m)

/-! ## Query parameter parsing (routes/news.js, lines 459-460) -/

/-- JavaScript `Number(x) || d`: `none` models a missing parameter or a
non-numeric string (`Number` gives `NaN`, which is falsy), `some 0` is falsy
as well, and any other integer passes through. -/
def jsNumberOr (v : Option Int) (d : Int) : Int :=
  match v with
  | none => d
  | some n => if n = 0 then d else n

/-- `parsedPage = Math.max(Number(page) || 1, 1)`. -/
def parsePage (page : Option Int) : Int := max (jsNumberOr page 1) 1

/-- `parsedLimit = Math.min(Number(limit) || 25, 100)`. -/
def parseLimit (limit : Option Int) : Int := min (jsNumberOr limit 25) 100

/-! ## Balanced distribution engine (routes/news.js) -/

/-- First-occurrence deduplication, the semantics of `[...new Set(list)]`
(and of `_.uniq`).  Fuelled by the list length so that it is structural. -/
def jsSetDedupAux {α : Type} [DecidableEq α] : Nat → List α → List α
  | 0, _ => []
  | _, [] => []
  | fuel + 1, x :: xs => x :: jsSetDedupAux fuel (xs.filter (fun y => decide (y ≠ x)))

/-- JavaScript `[...new Set(l)]`. -/
def jsSetDedup {α : Type} [DecidableEq α] (l : List α) : List α :=
  jsSetDedupAux l.length l

/-- JavaScript `l.slice(0, e)`: a negative end counts from the end of the
array. -/
def jsSlice0 {α : Type} (l : List α) (e : Int) : List α :=
  l.take (if 0 ≤ e then e.toNat else ((l.length : Int) + e).toNat)

/-- JavaScript `Math.ceil(a / b)` for an integer `a` and a positive integer
divisor `b` (the unreachable `b = 0` case is mapped to `0`). -/
def jsCeilDiv (a : Int) (b : Nat) : Int :=
  if b = 0 then 0
  else if 0 ≤ a then ((a.toNat + b - 1) / b : Nat)
  else -(((-a).toNat / b : Nat))

/-- Milliseconds in a day (`24 * 60 * 60 * 1000`). -/
def dayMs : Int := 24 * 60 * 60 * 1000

/-- Category-specific eligibility window in days:
`query.category === 'science' ? 14 : 7`. -/
def timeWindowDays (category : Option String) : Int :=
  if category = some "science" then 14 else 7

/-- Match of an article against the route query `{source?, category?}`. -/
def queryMatches (src category : Option String) (a : Article) : Bool :=
  (match src with
   | some s => a.source = s
   | none => true)
  &&
  (match category with
   | some c => a.category = c
   | none => true)

/-- Category component of `queryMatches` (the balanced path never carries a
source filter). -/
def categoryMatches (category : Option String) (a : Article) : Bool :=
  match category with
  | some c => a.category = c
  | none => true

/-- Stable insertion of an article into a list sorted by `key` descending
(the tie behaviour of V8's stable `Array.sort` with a `b - a` comparator). -/
def insertByKeyDesc (key : Article → Int) (a : Article) : List Article → List Article
  | [] => [a]
  | b :: bs =>
    if key a ≤ key b then b :: insertByKeyDesc key a bs
    else a :: b :: bs

/-- Sort a list of articles by `key` descending (stable). -/
def sortByKeyDesc (key : Article → Int) : List Article → List Article
  | [] => []
  | a :: rest => insertByKeyDesc key a (sortByKeyDesc key rest)

/-- Sort by publication date descending (`.sort({ pubDate: -1 })` and the
in-memory `(a, b) => new Date(b.pubDate) - new Date(a.pubDate)`). -/
def sortByDateDesc : List Article → List Article := sortByKeyDesc Article.pubDate

/-- MongoDB `.skip(n)` (negative values do not occur on the verified paths). -/
def mongoSkip (l : List Article) (n : Int) : List Article := l.drop n.toNat

/-- MongoDB `.limit(n)` (a negative argument limits to `|n|`). -/
def mongoLimit (l : List Article) (n : Int) : List Article := l.take n.natAbs

/-- `Article.distinct('source', {...query, pubDate: {$gte: now - window}})`:
the distinct source values among eligible articles, in first-appearance
order. -/
def distinctSources (store : List Article) (category : Option String) (now : Int) :
    List String :=
  jsSetDedup
    ((store.filter (fun a =>
        categoryMatches category a
        && decide (now - timeWindowDays category * dayMs ≤ a.pubDate))).map
      (fun a => a.source))

/-- `calculateArticlesPerSource(sourceCount, category, limit, page)`
(routes/news.js lines 328-353).  The JS `switch` is rendered as an
if-chain; the `page` parameter is declared but never used, exactly as in
the source. -/
def calculateArticlesPerSource (sourceCount : Nat) (category : Option String)
    (limit : Int) (page : Nat) : Int :=
  let baseCount := max 2 (jsCeilDiv limit (min sourceCount 20))
  if category = some "science" then min 6 (baseCount + 2)
  else if category = some "technology" then min 4 (baseCount + 1)
  else if category = some "entertainment" ∨ category = some "sports" then min 3 baseCount
  else if category = some "world" then min 2 baseCount
  else if category = some "business" then
    (if sourceCount < 15 then min 4 (baseCount + 1) else min 3 baseCount)
  else min 3 baseCount

/-- Per-page source budget: `Math.min(25, Math.ceil(distinctSources.length / 2))`. -/
def sourcesPerPageOf (n : Nat) : Nat := min 25 ((n + 1) / 2)

/-- Sliding source window for one page (lines 376-380): rotate the distinct
source list by `((page - 1) * (sourcesPerPage - overlapSources)) %
distinctSources.length` and keep the first `sourcesPerPage` sources. -/
def selectWindow (distinct : List String) (page : Nat) : List String :=
  let spp := sourcesPerPageOf distinct.length
  let overlap := spp / 4
  let startIdx := ((page - 1) * (spp - overlap)) % distinct.length
  ((distinct.drop startIdx) ++ (distinct.take startIdx)).take spp

/-- Region buckets for world news (`Object.values(regions)` order). -/
def regions : List (List String) :=
  [["channelnewsasia", "japantimes", "thehindubusinessline"],
   ["bbc", "france24", "euronews", "express"],
   ["cbc", "cbsnews", "nypost"],
   ["reuters", "wsj", "rt"]]

/-- World-news regional diversity adjustment (lines 383-402): when fewer
regional sources than regions are present, append sources of the missing
regions, capped at `sourcesPerPage - selectedSources.length`, and
deduplicate via `new Set`. -/
def worldAdjust (selectedSources : List String) (sourcesPerPage : Nat) : List String :=
  let regionalSources := regions.flatten
  let availableRegionalSources :=
    selectedSources.filter (fun s => regionalSources.contains s)
  if availableRegionalSources.length < regions.length then
    let missingRegions :=
      (regions.filter (fun region => !(region.any (fun s => selectedSources.contains s)))).flatten
    let additionalSources := missingRegions.take (sourcesPerPage - selectedSources.length)
    jsSetDedup (selectedSources ++ additionalSources)
  else selectedSources

/-- Source selection of `getBalancedArticles` (lines 367-403): all distinct
sources when they fit the budget, otherwise the sliding window, with the
world-specific adjustment applied inside the else branch only. -/
def selectedSourcesFor (category : Option String) (distinct : List String) (page : Nat) :
    List String :=
  let spp := sourcesPerPageOf distinct.length
  if distinct.length ≤ spp then distinct
  else if category = some "world" then worldAdjust (selectWindow distinct page) spp
  else selectWindow distinct page

/-- Per-source sub-query of the balanced fan-out (lines 414-424):
`Article.find({...query, source: src, pubDate: {$gte: now - window}})`
sorted by `pubDate` descending and limited to the quota.  Note the query
carries no skip or page-dependent offset. -/
def perSourceFind (store : List Article) (category : Option String) (now : Int)
    (srcName : String) (quota : Int) : List Article :=
  (sortByDateDesc (store.filter (fun a =>
      categoryMatches category a
      && a.source = srcName
      && decide (now - timeWindowDays category * dayMs ≤ a.pubDate)))).take quota.toNat

/-- `Promise.all`: resolves with the list of results, or rejects with the
first rejection. -/
def promiseAll {ε α : Type} : List (Except ε α) → Except ε (List α)
  | [] => .ok []
  | .ok x :: rest =>
    (match promiseAll rest with
     | .ok xs => .ok (x :: xs)
     | .error e => .error e)
  | .error e :: _ => .error e

/-- Boolean error test on `Except` results. -/
def isErrorResult {ε α : Type} : Except ε α → Bool
  | .error _ => true
  | .ok _ => false

/-- Failure of one source's sub-query during the balanced fan-out. -/
structure SubqueryFailure where
  msg : String
deriving DecidableEq, Repr

/-- Sparse-array read `acc[i]` after a sequence of assignments (the last
assignment to an index wins). -/
def jsArrayAt (pairs : List (Nat × Article)) (i : Nat) : Option Article :=
  ((pairs.filter (fun p => p.1 = i)).getLast?).map (fun p => p.2)

/-- Largest assigned index of the sparse accumulator. -/
def maxIndex (pairs : List (Nat × Article)) : Nat :=
  pairs.foldl (fun m p => max m p.1) 0

/-- `array.filter(Boolean)` over the sparse accumulator: read indices in
ascending order and drop the holes. -/
def sparseCompact (pairs : List (Nat × Article)) : List Article :=
  (List.range (maxIndex pairs + 1)).filterMap (jsArrayAt pairs)

/-- Stride assignments of the interleaving step (lines 429-437): article
`i` of non-empty source list `j` is written at index
`i * selectedSources.length + j`. -/
def stridePairs (lists : List (List Article)) (stride : Nat) : List (Nat × Article) :=
  ((lists.filter (fun l => !l.isEmpty)).enum.map
    (fun jl => jl.2.enum.map (fun ia => (ia.1 * stride + jl.1, ia.2)))).flatten

/-- Round-robin interleave of the per-source lists. -/
def interleave (lists : List (List Article)) (stride : Nat) : List Article :=
  sparseCompact (stridePairs lists stride)

/-- `getBalancedArticles(query, page, limit)` (lines 356-443) with the store
fan-out abstracted by `subq src quota`, the promise of one source's
sub-query.  `Promise.all` joins the sub-queries; its rejection is the
function's rejection.  On success the interleaved sequence is re-sorted by
date and cut to `limit`. -/
def getBalancedArticlesR (subq : String → Int → Except SubqueryFailure (List Article))
    (distinct : List String) (category : Option String) (page : Nat) (limit : Int) :
    Except SubqueryFailure (List Article) :=
  let selected := selectedSourcesFor category distinct page
  let articlesPerSource := calculateArticlesPerSource selected.length category limit page
  match promiseAll (selected.map (fun src => subq src articlesPerSource)) with
  | .error e => .error e
  | .ok sourceArticles =>
    .ok (jsSlice0 (sortByDateDesc (interleave sourceArticles selected.length)) limit)

/-- Candidate articles a given source contributes to the page numbered
`page`: the per-source sub-query run with the quota computed from that
page's selected window. -/
def pageContribution (store : List Article) (category : Option String)
    (distinct : List String) (limit : Int) (now : Int) (page : Nat) (src : String) :
    List Article :=
  perSourceFind store category now src
    (calculateArticlesPerSource (selectedSourcesFor category distinct page).length
      category limit page)

/-! ## List route handler (routes/news.js, lines 445-580) -/

/-- Kinds of store queries the route can issue, in issue order. -/
inductive StoreOp
  | countDocumentsOp
  | distinctOp
  | findOp
  | aggregateOp
deriving DecidableEq, Repr

/-- `Math.ceil(total / parsedLimit)` for the `totalPages` field (`total` is a
document count; a negative `parsedLimit` makes the quotient round toward
zero; `parsedLimit` is never `0`). -/
def jsCeilTotalPages (total : Nat) (limit : Int) : Int :=
  if 0 < limit then ((total + limit.toNat - 1) / limit.toNat : Nat)
  else if limit < 0 then -((total / limit.natAbs : Nat))
  else 0

/-- Responses of the list route.  `emptyPage` is the early `total === 0`
return with its literal body `{page, limit, total: 0, totalPages: 0,
articles: []}`; `okPage` is the full success body; `badRequest` is a 400,
`serverError` a 500. -/
inductive RouteResponse
  | emptyPage (page limit : Int)
  | okPage (page limit : Int) (total : Nat) (totalPages : Int)
      (nextPage prevPage : Option Int) (sort : String)
      (articles : List Article) (sourcesCount : Nat)
  | badRequest (error : String)
  | serverError (error : String)
deriving DecidableEq, Repr

/-- Success body of the list route (lines 559-569). -/
def buildPage (page limit : Int) (total : Nat) (sort : String)
    (articles : List Article) : RouteResponse :=
  .okPage page limit total (jsCeilTotalPages total limit)
    (if page * limit < (total : Int) then some (page + 1) else none)
    (if 1 < page then some (page - 1) else none)
    sort articles
    (jsSetDedup (articles.map (fun a => a.source))).length

/-- Query-string of one list request (`none` = parameter absent or, for the
numeric ones, non-numeric). -/
structure ListRequest where
  source : Option String
  category : Option String
  page : Option Int
  limit : Option Int
  sort : String
deriving Repr

/-- The GET / handler of routes/news.js: takes the store contents, the
current instant, the cache map, and deterministic stand-ins for
`_.sampleSize` and `_.shuffle`; returns the response together with the
ordered trace of store queries issued while producing it.  Writes to the
cache affect later requests only and are not returned. -/
def handleList (store : List Article) (now : Int) (m : CacheMap (List Article))
    (sampleSize : List String → Nat → List String)
    (shuffle : List Article → List Article) (req : ListRequest) :
    RouteResponse × List StoreOp :=
  let parsedPage := parsePage req.page
  let parsedLimit := parseLimit req.limit
  let query := store.filter (queryMatches req.source req.category)
  let total := query.length
  if total = 0 then
    (.emptyPage parsedPage parsedLimit, [.countDocumentsOp])
  else
    let cacheKey := "news:" ++ req.sort ++ ":" ++ (req.source.getD "all") ++ ":"
      ++ (req.category.getD "all") ++ ":" ++ toString parsedPage
    match (getCache m cacheKey now).1 with
    | some cachedArticles =>
      (buildPage parsedPage parsedLimit total req.sort cachedArticles,
       [.countDocumentsOp])
    | none =>
      match req.sort with
      | "newest" =>
        if req.source.isSome then
          (buildPage parsedPage parsedLimit total req.sort
            (mongoLimit
              (mongoSkip (sortByDateDesc query) ((parsedPage - 1) * parsedLimit))
              parsedLimit),
           [.countDocumentsOp, .findOp])
        else
          let distinct := distinctSources store req.category now
          let selected := selectedSourcesFor req.category distinct parsedPage.toNat
          match getBalancedArticlesR
              (fun src quota => .ok (perSourceFind store req.category now src quota))
              distinct req.category parsedPage.toNat parsedLimit with
          | .ok articles =>
            (buildPage parsedPage parsedLimit total req.sort articles,
             [.countDocumentsOp, .distinctOp] ++ selected.map (fun _ => .findOp))
          | .error e =>
            (.serverError e.msg,
             [.countDocumentsOp, .distinctOp] ++ selected.map (fun _ => .findOp))
      | "popular" =>
        (buildPage parsedPage parsedLimit total req.sort
          (mongoLimit
            (mongoSkip (sortByKeyDesc Article.views query) ((parsedPage - 1) * parsedLimit))
            parsedLimit),
         [.countDocumentsOp, .findOp])
      | "random" =>
        (match (getCache m cacheKey now).1 with
         | some randomCache =>
           (buildPage parsedPage parsedLimit total req.sort randomCache,
            [.countDocumentsOp])
         | none =>
           let distinct := jsSetDedup (query.map (fun a => a.source))
           let selected := sampleSize distinct (min 10 distinct.length)
           let fetched := mongoLimit
             (sortByDateDesc (query.filter (fun a => selected.contains a.source)))
             (parsedLimit * 2)
           (buildPage parsedPage parsedLimit total req.sort
             (jsSlice0 (shuffle fetched) parsedLimit),
            [.countDocumentsOp, .distinctOp, .findOp]))
      | "semiRandom" =>
        (match (getCache m cacheKey now).1 with
         | some semiRandomCache =>
           (buildPage parsedPage parsedLimit total req.sort semiRandomCache,
            [.countDocumentsOp])
         | none =>
           let recent := query.filter (fun a => decide (now - 3 * dayMs ≤ a.pubDate))
           let distinct := jsSetDedup (recent.map (fun a => a.source))
           let selected := sampleSize distinct (min 15 distinct.length)
           let fetched := mongoLimit
             (sortByDateDesc (recent.filter (fun a => selected.contains a.source)))
             (parsedLimit * 2)
           (buildPage parsedPage parsedLimit total req.sort
             (jsSlice0 (shuffle fetched) parsedLimit),
            [.countDocumentsOp, .distinctOp, .findOp]))
      | _ =>
        (.badRequest ("Invalid sort method: " ++ req.sort), [.countDocumentsOp])

/-! ## Theorems -/

/-- C5 counterexample: a `downloadFirst` run whose staged read fails exits
(throws) with the temporary file still on disk, so the claim that the
artifact is removed on every exit path is false. -/
theorem c5_counterexample :
    runDownloadFirst ⟨.ok "<rss/>", .ok (), .error ⟨none, none⟩⟩
      = (.error ⟨none, none⟩, true) := rfl

/-- C5 (amended): the temporary artifact survives the staging block exactly
when the response and the write succeeded but the re-read failed; it is
removed on the success path and never created on the earlier failure
paths. -/
theorem c5_artifact_left_iff_read_fails (run : DownloadArtifactRun) :
    (runDownloadFirst run).2 = true ↔
      (∃ d, run.responseOutcome = .ok d)
      ∧ run.writeOutcome = .ok ()
      ∧ (∃ e, run.readOutcome = .error e) := by
  obtain ⟨r, w, rd⟩ := run
  cases r <;> cases w <;> cases rd <;> simp [runDownloadFirst]

/-- C6: the retry delay before the next attempt is `retryDelay * attempt`
for HTTP 429, `retryDelay * 2` for HTTP 403, and the base `retryDelay` for
timeouts and every other failure. -/
theorem c6_retry_delay_classification (s : RateLimitSettings) (attempt : Nat) (e : FetchErr) :
    (e.status = some 429 → retryDelayFor s attempt e = s.retryDelay * attempt)
    ∧ (e.status = some 403 → retryDelayFor s attempt e = s.retryDelay * 2)
    ∧ (e.status ≠ some 429 → e.status ≠ some 403 →
        retryDelayFor s attempt e = s.retryDelay) := by
  refine ⟨fun h => ?_, fun h => ?_, fun h1 h2 => ?_⟩
  · simp [retryDelayFor, isRateLimitErr, h]
  · simp [retryDelayFor, isRateLimitErr, isForbiddenErr, h]
  · simp [retryDelayFor, isRateLimitErr, isForbiddenErr, h1, h2]

/-- C6 witness: the three delay classes evaluated on the default profile. -/
theorem c6_witness :
    retryDelayFor defaultRateLimit 3 ⟨some 429, none⟩ = 6000
    ∧ retryDelayFor defaultRateLimit 1 ⟨some 403, none⟩ = 4000
    ∧ retryDelayFor defaultRateLimit 1 ⟨none, some "ECONNABORTED"⟩ = 2000 := by
  refine ⟨?_, ?_, ?_⟩
  · exact (c6_retry_delay_classification defaultRateLimit 3 ⟨some 429, none⟩).1 rfl
  · exact (c6_retry_delay_classification defaultRateLimit 1 ⟨some 403, none⟩).2.1 rfl
  · exact (c6_retry_delay_classification defaultRateLimit 1 ⟨none, some "ECONNABORTED"⟩).2.2
      (by decide) (by decide)

/-- Helper: when every attempt fails, the loop performs exactly as many
attempts as it has iterations left. -/
theorem attemptsMade_all_fail (outcome : Nat → Except FetchErr String)
    (errs : Nat → FetchErr) (h : ∀ i, outcome i = .error (errs i)) :
    ∀ r a, attemptsMade outcome r a = r := by
  intro r
  induction r with
  | zero => intro a; rfl
  | succ r' ih =>
    intro a
    simp [attemptsMade, h a, ih (a + 1)]
    omega

/-- Helper: when every attempt fails, the loop terminates with the
configured ceiling and the error of its last attempt. -/
theorem fetchLoop_all_fail (outcome : Nat → Except FetchErr String)
    (errs : Nat → FetchErr) (maxR : Nat) (h : ∀ i, outcome i = .error (errs i)) :
    ∀ r a last, 1 ≤ r →
      fetchAttemptsLoop outcome maxR r a last = .error ⟨maxR, some (errs (a + r - 1))⟩ := by
  intro r
  induction r with
  | zero => intro a last hr; omega
  | succ r' ih =>
    intro a last _
    simp only [fetchAttemptsLoop, h a]
    cases r' with
    | zero => simp [fetchAttemptsLoop]
    | succ r'' =>
      rw [ih (a + 1) (some (errs a)) (by omega)]
      have hidx : a + 1 + (r'' + 1) - 1 = a + (r'' + 1 + 1) - 1 := by omega
      rw [hidx]

/-- C7: a fetch whose every attempt fails performs exactly
`settings.maxRetries` attempts and then fails with the exhaustion error
carrying that attempt count and the error of the last attempt. -/
theorem c7_exhausts_retries (outcome : Nat → Except FetchErr String)
    (errs : Nat → FetchErr) (settings : RateLimitSettings)
    (hout : ∀ i, outcome i = .error (errs i)) (hmax : 1 ≤ settings.maxRetries) :
    fetchAttemptCount outcome settings = settings.maxRetries
    ∧ fetchXMLResult outcome settings
        = .error ⟨settings.maxRetries, some (errs settings.maxRetries)⟩ := by
  constructor
  · exact attemptsMade_all_fail outcome errs hout settings.maxRetries 1
  · have h := fetchLoop_all_fail outcome errs settings.maxRetries hout
      settings.maxRetries 1 none hmax
    have hidx : 1 + settings.maxRetries - 1 = settings.maxRetries := by omega
    rw [fetchXMLResult, h, hidx]

/-- C7 witness: with the default profile (maxRetries = 3) and every attempt
answering HTTP 429, exactly 3 attempts happen and the exhaustion error
carries 3 and the 429 cause. -/
theorem c7_witness :
    fetchAttemptCount (fun _ => .error ⟨some 429, none⟩) defaultRateLimit = 3
    ∧ fetchXMLResult (fun _ => .error ⟨some 429, none⟩) defaultRateLimit
        = .error ⟨3, some ⟨some 429, none⟩⟩ := by
  have h := c7_exhausts_retries (fun _ => .error ⟨some 429, none⟩)
    (fun _ => ⟨some 429, none⟩) defaultRateLimit (fun _ => rfl) (by decide)
  exact h

/-- C8 counterexample: a negative `limit` passes through `Math.min(_, 100)`
un-clamped, so the claim that no limit below 1 is ever used is false. -/
theorem c8_counterexample :
    parseLimit (some (-5)) = -5 ∧ ¬(1 ≤ parseLimit (some (-5))) := by decide

/-- C8 (amended): `page` is clamped to at least 1 (`page=0` becomes 1) and
`limit` is capped above at 100 (`limit=500` becomes 100, absent or zero
values default), but negative limits are not clamped from below. -/
theorem c8_clamping (p l : Option Int) :
    1 ≤ parsePage p ∧ parseLimit l ≤ 100
    ∧ parsePage (some 0) = 1 ∧ parseLimit (some 500) = 100
    ∧ parseLimit (some (-5)) = -5 := by
  refine ⟨le_max_right _ _, min_le_right _ _, by decide, by decide, by decide⟩

/-- C9: setting a key unconditionally replaces the entry; a get at the set
instant returns the value; once the TTL has elapsed (strictly past the
stored expiry) a get reports a miss and removes the entry. -/
theorem c9_cache_roundtrip {α : Type} (m : CacheMap α) (k : String) (v : α)
    (ttl t0 t1 : Int) (httl : 0 < ttl) :
    (setCache m k v ttl t0) k = some ⟨v, t0 + ttl * 1000⟩
    ∧ (getCache (setCache m k v ttl t0) k t0).1 = some v
    ∧ (t0 + ttl * 1000 < t1 →
        (getCache (setCache m k v ttl t0) k t1).1 = none
        ∧ (getCache (setCache m k v ttl t0) k t1).2 k = none) := by
  have hset : (setCache m k v ttl t0) k = some ⟨v, t0 + ttl * 1000⟩ := by
    simp [setCache]
  refine ⟨hset, ?_, fun hel => ?_⟩
  · rw [getCache, hset]
    have : ¬(t0 + ttl * 1000 < t0) := by omega
    simp [this]
  · rw [getCache, hset]
    simp [hel]

/-- C9 witness: a concrete set/get round trip with ttl 1 second. -/
theorem c9_witness :
    (getCache (setCache (fun _ => none) "k" (7 : Nat) 1 0) "k" 0).1 = some 7
    ∧ (getCache (setCache (fun _ => none) "k" (7 : Nat) 1 0) "k" 1001).1 = none := by
  have h := c9_cache_roundtrip (fun _ => none) "k" (7 : Nat) 1 0 1001 (by decide)
  exact ⟨h.2.1, (h.2.2 (by decide)).1⟩

/-- Helper: `Promise.all` rejects whenever any member promise rejects. -/
theorem promiseAll_error_of_mem {ε α : Type} (rs : List (Except ε α))
    (h : ∃ r ∈ rs, isErrorResult r = true) :
    isErrorResult (promiseAll rs) = true := by
  induction rs with
  | nil => rcases h with ⟨r, hr, _⟩; cases hr
  | cons r rest ih =>
    rcases h with ⟨x, hx, hxe⟩
    cases r with
    | error e => rfl
    | ok v =>
      rcases List.mem_cons.mp hx with h1 | h2
      · rw [h1] at hxe; simp [isErrorResult] at hxe
      · have hrest := ih ⟨x, h2, hxe⟩
        simp only [promiseAll]
        cases hpa : promiseAll rest with
        | error e => simp [isErrorResult]
        | ok l => rw [hpa] at hrest; simp [isErrorResult] at hrest

/-- Article used in concrete scenarios. -/
def artA : Article := ⟨"a1", "a", "technology", 1000, 0⟩

/-- Fan-out behaviour for the C1 scenario: the sub-query of source `"b"`
rejects, every other source resolves with one article. -/
def c1subq : String → Int → Except SubqueryFailure (List Article) :=
  fun src _ => if src = "b" then .error ⟨"db down"⟩ else .ok [artA]

/-- C1 counterexample: with selected sources `["a", "b"]` and only source
`"b"` failing, the balanced call does not return a page at all — it fails
with the sub-query error, so the fail-open claim is false. -/
theorem c1_counterexample :
    getBalancedArticlesR c1subq ["a", "b", "c"] none 1 4 = .error ⟨"db down"⟩ := rfl

/-- C1 (amended): a failure of any single selected source's sub-query makes
the joined `Promise.all` reject, so the whole balanced call fails (surfaced
as a 500 by the route); no partial page with the other sources'
contributions is produced. -/
theorem c1_single_failure_fails_whole
    (subq : String → Int → Except SubqueryFailure (List Article))
    (distinct : List String) (category : Option String) (page : Nat) (limit : Int)
    (src : String) (hmem : src ∈ selectedSourcesFor category distinct page)
    (hfail : isErrorResult (subq src
      (calculateArticlesPerSource (selectedSourcesFor category distinct page).length
        category limit page)) = true) :
    isErrorResult (getBalancedArticlesR subq distinct category page limit) = true := by
  simp only [getBalancedArticlesR]
  have herr := promiseAll_error_of_mem
    ((selectedSourcesFor category distinct page).map (fun s => subq s
      (calculateArticlesPerSource (selectedSourcesFor category distinct page).length
        category limit page)))
    ⟨subq src (calculateArticlesPerSource
        (selectedSourcesFor category distinct page).length category limit page),
      List.mem_map_of_mem _ hmem, hfail⟩
  cases hpa : promiseAll
      ((selectedSourcesFor category distinct page).map (fun s => subq s
        (calculateArticlesPerSource (selectedSourcesFor category distinct page).length
          category limit page))) with
  | error e => simp [hpa, isErrorResult]
  | ok l => rw [hpa] at herr; simp [isErrorResult] at herr

/-- C1 witness: the amended theorem applied to the concrete failing
fan-out. -/
theorem c1_witness :
    isErrorResult (getBalancedArticlesR c1subq ["a", "b", "c"] none 1 4) = true :=
  c1_single_failure_fails_whole c1subq ["a", "b", "c"] none 1 4 "b"
    (by decide) (by decide)

/-- C3 counterexample: for category science with 25 selected sources and
limit 100 the computed quota is 6, above the claimed fairness bound
`ceil(100/25) + 1 = 5`. -/
theorem c3_counterexample :
    calculateArticlesPerSource 25 (some "science") 100 1 = 6
    ∧ jsCeilDiv 100 25 + 1 = 5
    ∧ ¬(calculateArticlesPerSource 25 (some "science") 100 1 ≤ jsCeilDiv 100 25 + 1) := by
  decide

/-- Helper: the ceiling quotient of a positive limit by a positive divisor
is at least 1. -/
theorem one_le_jsCeilDiv (limit : Int) (n : Nat) (hl : 1 ≤ limit) (hn : 1 ≤ n) :
    1 ≤ jsCeilDiv limit n := by
  have hn0 : ¬(n = 0) := by omega
  have hl0 : (0 : Int) ≤ limit := by omega
  simp only [jsCeilDiv, hn0, if_false, hl0, if_true]
  have h1 : 1 ≤ limit.toNat := by omega
  have : 1 ≤ (limit.toNat + n - 1) / n := by
    rw [Nat.one_le_div_iff (by omega)]
    omega
  exact_mod_cast this

/-- C3 (amended): the per-source quota is bounded by
`max(2, ceil(limit / min(N, 20))) + 2` and by the hard cap 6 for every
category; the claimed bound `ceil(limit/N) + 1` does hold for the world
category (whose quota never exceeds 2), but not in general. -/
theorem c3_quota_bounds (sourceCount : Nat) (category : Option String)
    (limit : Int) (page : Nat) (hN : 1 ≤ sourceCount) :
    calculateArticlesPerSource sourceCount category limit page
        ≤ max 2 (jsCeilDiv limit (min sourceCount 20)) + 2
    ∧ calculateArticlesPerSource sourceCount category limit page ≤ 6
    ∧ (category = some "world" → 1 ≤ limit →
        calculateArticlesPerSource sourceCount category limit page
          ≤ jsCeilDiv limit sourceCount + 1) := by
  refine ⟨?_, ?_, fun hw hl => ?_⟩
  · simp only [calculateArticlesPerSource]
    split_ifs <;> omega
  · simp only [calculateArticlesPerSource]
    split_ifs <;> omega
  · have hone := one_le_jsCeilDiv limit sourceCount hl hN
    simp only [calculateArticlesPerSource, hw]
    split_ifs with h1 h2 h3 h4 <;> simp_all <;> omega

/-- C3 witness: the amended bounds evaluated for the world category. -/
theorem c3_witness :
    calculateArticlesPerSource 10 (some "world") 25 1
        ≤ max 2 (jsCeilDiv 25 (min 10 20)) + 2
    ∧ calculateArticlesPerSource 10 (some "world") 25 1 ≤ 6
    ∧ calculateArticlesPerSource 10 (some "world") 25 1 ≤ jsCeilDiv 25 10 + 1 := by
  have h := c3_quota_bounds 10 (some "world") 25 1 (by decide)
  exact ⟨h.1, h.2.1, h.2.2 rfl (by decide)⟩

/-- Helper: first-occurrence deduplication leaves a duplicate-free list
unchanged (auxiliary, fuel version). -/
theorem jsSetDedupAux_of_nodup {α : Type} [DecidableEq α] :
    ∀ (l : List α), l.Nodup → ∀ fuel, l.length ≤ fuel → jsSetDedupAux fuel l = l := by
  intro l
  induction l with
  | nil => intro _ fuel _; cases fuel <;> rfl
  | cons x xs ih =>
    intro hnd fuel hlen
    cases fuel with
    | zero => simp at hlen
    | succ f =>
      simp only [jsSetDedupAux]
      have hx : xs.filter (fun y => decide (y ≠ x)) = xs := by
        apply List.filter_eq_self.mpr
        intro a ha
        have hax : a ≠ x := by
          intro heq
          subst heq
          exact (List.nodup_cons.mp hnd).1 ha
        simp [hax]
      rw [hx, ih (List.nodup_cons.mp hnd).2 f (by simp at hlen; omega)]

/-- Helper: `[...new Set(l)] = l` for a duplicate-free `l`. -/
theorem jsSetDedup_of_nodup {α : Type} [DecidableEq α] (l : List α) (h : l.Nodup) :
    jsSetDedup l = l :=
  jsSetDedupAux_of_nodup l h l.length le_rfl

/-- Helper: the world adjustment is the identity on any duplicate-free
selected set that already fills the source budget — the substitution slice
`missingRegions.slice(0, sourcesPerPage - selectedSources.length)` is then
empty. -/
theorem worldAdjust_noop (selected : List String) (spp : Nat)
    (hnd : selected.Nodup) (hlen : selected.length = spp) :
    worldAdjust selected spp = selected := by
  simp only [worldAdjust]
  split_ifs with h
  · simp [hlen, jsSetDedup_of_nodup _ hnd]
  · rfl

/-- Helper: a rotation `l.drop s ++ l.take s` keeps the length of `l`. -/
theorem rotation_length {α : Type} (l : List α) (s : Nat) :
    (l.drop s ++ l.take s).length = l.length := by
  simp only [List.length_append, List.length_drop, List.length_take]
  omega

/-- Helper: the sliding window has exactly `sourcesPerPage` sources whenever
the distinct source list is larger than the budget. -/
theorem selectWindow_length (distinct : List String) (page : Nat)
    (h : sourcesPerPageOf distinct.length < distinct.length) :
    (selectWindow distinct page).length = sourcesPerPageOf distinct.length := by
  simp only [selectWindow, List.length_take]
  rw [rotation_length]
  omega

/-- Helper: the sliding window of a duplicate-free distinct list is
duplicate-free (it is a prefix of a rotation). -/
theorem selectWindow_nodup (distinct : List String) (page : Nat)
    (h : sourcesPerPageOf distinct.length < distinct.length)
    (hnd : distinct.Nodup) : (selectWindow distinct page).Nodup := by
  simp only [selectWindow]
  have hpos : 0 < distinct.length := by omega
  have hs : ((page - 1) * (sourcesPerPageOf distinct.length
      - sourcesPerPageOf distinct.length / 4)) % distinct.length ≤ distinct.length :=
    le_of_lt (Nat.mod_lt _ hpos)
  rw [← List.rotate_eq_drop_append_take hs]
  exact List.Nodup.sublist (List.take_sublist _ _) (List.nodup_rotate.mpr hnd)

/-- Witness list for the C4 scenario: ten distinct eligible sources, each
region represented, but all the regional sources sit beyond the first
window. -/
def ceWorldDistinct : List String :=
  ["s1", "s2", "s3", "s4", "s5", "channelnewsasia", "bbc", "cbc", "reuters", "s6"]

/-- C4 counterexample: every region is represented among the distinct
eligible sources and the source budget (5) is at least the number of
regions (4), yet the selected window for page 1 of category world contains
no source of any region — the substitution never repairs a missing
region. -/
theorem c4_counterexample :
    regions.length ≤ sourcesPerPageOf ceWorldDistinct.length
    ∧ (regions.all (fun r => r.any (fun s => ceWorldDistinct.contains s)) = true)
    ∧ (regions.all (fun r => r.any (fun s =>
        (selectedSourcesFor (some "world") ceWorldDistinct 1).contains s)) = false) := by
  decide

/-- C4 (amended): whenever the distinct source list exceeds the budget (the
only case in which the world adjustment runs), the adjustment returns the
sliding window unchanged: the substitution slice is capped at
`sourcesPerPage - selectedSources.length = 0`, so no source of a missing
region is ever added and no regional representation is guaranteed. -/
theorem c4_world_adjust_is_noop (distinct : List String) (page : Nat)
    (hnd : distinct.Nodup)
    (h : sourcesPerPageOf distinct.length < distinct.length) :
    selectedSourcesFor (some "world") distinct page = selectWindow distinct page := by
  simp only [selectedSourcesFor]
  rw [if_neg (by omega)]
  simp only [if_true]
  exact worldAdjust_noop _ _ (selectWindow_nodup distinct page h hnd)
    (selectWindow_length distinct page h)

/-- C4 witness: the no-op adjustment evaluated on the concrete scenario
list at page 3. -/
theorem c4_witness :
    selectedSourcesFor (some "world") ceWorldDistinct 3 = selectWindow ceWorldDistinct 3 :=
  c4_world_adjust_is_noop ceWorldDistinct 3 (by decide) (by decide)

/-- Helper: the number of selected sources depends only on the distinct
source list, never on the page: it is the whole list when it fits the
budget and exactly the budget otherwise. -/
theorem selectedSourcesFor_length (category : Option String) (distinct : List String)
    (page : Nat) (hnd : distinct.Nodup) :
    (selectedSourcesFor category distinct page).length
      = min distinct.length (sourcesPerPageOf distinct.length) := by
  simp only [selectedSourcesFor]
  split_ifs with h1 h2
  · omega
  · rw [worldAdjust_noop _ _ (selectWindow_nodup distinct page (by omega) hnd)
      (selectWindow_length distinct page (by omega))]
    rw [selectWindow_length distinct page (by omega)]
    omega
  · rw [selectWindow_length distinct page (by omega)]
    omega

/-- Helper: `calculateArticlesPerSource` ignores its `page` parameter. -/
theorem calculateArticlesPerSource_page_irrelevant (sourceCount : Nat)
    (category : Option String) (limit : Int) (p q : Nat) :
    calculateArticlesPerSource sourceCount category limit p
      = calculateArticlesPerSource sourceCount category limit q := rfl

/-- C10: for a fixed store, filter, limit and instant, a source selected on
two different pages contributes exactly the same candidate articles on
both: the page number only rotates the source window, the per-source
sub-query carries no skip, and the quota does not depend on the page. -/
theorem c10_page_independent_contribution (store : List Article)
    (category : Option String) (distinct : List String) (limit : Int) (now : Int)
    (p1 p2 : Nat) (src : String) (hnd : distinct.Nodup)
    (h1 : src ∈ selectedSourcesFor category distinct p1)
    (h2 : src ∈ selectedSourcesFor category distinct p2) :
    pageContribution store category distinct limit now p1 src
      = pageContribution store category distinct limit now p2 src := by
  unfold pageContribution
  rw [selectedSourcesFor_length category distinct p1 hnd,
    selectedSourcesFor_length category distinct p2 hnd,
    calculateArticlesPerSource_page_irrelevant _ _ _ p1 p2]

/-- C10 witness: source `"a"` is selected on pages 1 and 2 of a three-source
corpus and contributes the same articles on both. -/
theorem c10_witness :
    pageContribution [artA] none ["a", "b", "c"] 25 0 1 "a"
      = pageContribution [artA] none ["a", "b", "c"] 25 0 2 "a" :=
  c10_page_independent_contribution [artA] none ["a", "b", "c"] 25 0 1 2 "a"
    (by decide) (by decide) (by decide)

/-- Store used in concrete route scenarios: one article, so `total ≠ 0`. -/
def ceStore : List Article := [⟨"t1", "s1", "tech", 0, 0⟩]

/-- C2 counterexample: with a non-empty store and a cold cache,
`sort=bogus` does produce the 400 naming the invalid value, but only after
a `countDocuments` query has been issued — the trace of store queries is
not empty, contradicting the claim that no store query precedes the
error. -/
theorem c2_counterexample :
    handleList ceStore 0 (fun _ => none) (fun l _ => l) id
        ⟨none, none, none, none, "bogus"⟩
      = (.badRequest "Invalid sort method: bogus", [.countDocumentsOp])
    ∧ ([StoreOp.countDocumentsOp] ≠ ([] : List StoreOp)) := by
  exact ⟨rfl, by decide⟩

/-- C2 (amended): a sort value outside {newest, popular, random,
semiRandom} is answered with a 400 identifying the value, but only after
the `countDocuments` query has been issued (and only when the count is
non-zero and the composite cache key misses; a zero count returns an empty
page instead of the error). -/
theorem c2_invalid_sort_rejected_after_count (store : List Article) (now : Int)
    (m : CacheMap (List Article)) (sampleSize : List String → Nat → List String)
    (shuffle : List Article → List Article) (req : ListRequest)
    (h1 : req.sort ≠ "newest") (h2 : req.sort ≠ "popular")
    (h3 : req.sort ≠ "random") (h4 : req.sort ≠ "semiRandom")
    (htotal : (store.filter (queryMatches req.source req.category)).length ≠ 0)
    (hmiss : (getCache m ("news:" ++ req.sort ++ ":" ++ (req.source.getD "all") ++ ":"
      ++ (req.category.getD "all") ++ ":" ++ toString (parsePage req.page)) now).1 = none) :
    handleList store now m sampleSize shuffle req
      = (.badRequest ("Invalid sort method: " ++ req.sort), [.countDocumentsOp]) := by
  simp only [handleList]
  rw [if_neg htotal, hmiss]

/-- C2 witness: the amended theorem applied to a concrete bogus sort. -/
theorem c2_witness :
    handleList ceStore 5 (fun _ => none) (fun l _ => l) id
        ⟨none, none, none, none, "weird"⟩
      = (.badRequest ("Invalid sort method: " ++ "weird"), [.countDocumentsOp]) :=
  c2_invalid_sort_rejected_after_count ceStore 5 (fun _ => none) (fun l _ => l) id
    ⟨none, none, none, none, "weird"⟩ (by decide) (by decide) (by decide) (by decide)
    (by decide) rfl
